import Mathlib

/-!
Verification development for the invoice PDF text-extraction pipeline
(`tracker/utils/pdf_text_extractor.py`).

The Python source is shallowly embedded: each Python function that the
claims touch is translated into an executable Lean definition of the same
name (where Lean allows it).  Python regular expressions are embedded as
data (`RE`) evaluated by a small backtracking matcher with explicit fuel,
whose search / alternation / greediness order mirrors Python's `re`
module (leftmost match, left alternative first, greedy tries longer
first, lazy tries shorter first).  `Decimal`/`float` values are embedded
as exact rationals (`ℚ`); the numeric strings handled by the parser are
short decimal literals, for which the embedding is exact.
-/

namespace PdfExtract

/-- ASCII decimal digit, Python's `\d` (ASCII input; codes 48–57). -/
def isDigitC (c : Char) : Bool := 48 ≤ c.toNat && c.toNat ≤ 57

/-- ASCII letter, the regex class `[A-Za-z]` (codes 65–90 and 97–122). -/
def isAlphaC (c : Char) : Bool :=
  (65 ≤ c.toNat && c.toNat ≤ 90) || (97 ≤ c.toNat && c.toNat ≤ 122)

/-- Python's `\s` on ASCII input: space, tab, newline, CR, FF, VT. -/
def isSpaceC (c : Char) : Bool :=
  c = ' ' || c = '\t' || c = '\n' || c = '\x0d' || c = '\x0c' || c = '\x0b'

/-- Python's `\w` on ASCII input: letter, digit or underscore. -/
def isWordC (c : Char) : Bool := isAlphaC c || isDigitC c || c = '_'

/-- `str.lower` on one ASCII character. -/
def lowerChar (c : Char) : Char :=
  if 65 ≤ c.toNat && c.toNat ≤ 90 then Char.ofNat (c.toNat + 32) else c

/-- `str.upper` on one ASCII character. -/
def upperChar (c : Char) : Char :=
  if 97 ≤ c.toNat && c.toNat ≤ 122 then Char.ofNat (c.toNat - 32) else c

/-- `str.lower` over a character list. -/
def pyLower (cs : List Char) : List Char := cs.map lowerChar

/-- `str.upper` over a character list. -/
def pyUpper (cs : List Char) : List Char := cs.map upperChar

/-- `str.strip()` : drop leading and trailing whitespace. -/
def pyStripL (cs : List Char) : List Char :=
  ((cs.dropWhile isSpaceC).reverse.dropWhile isSpaceC).reverse

/-- `str.strip()` on `String`. -/
def pyStrip (s : String) : String := String.mk (pyStripL s.toList)

/-- Numeric value of a digit list (most significant first). -/
def digitsToNat (cs : List Char) : Nat :=
  cs.foldl (fun a c => a * 10 + (c.toNat - 48)) 0

/-- Python `int(s)` on the candidates reaching it in `is_valid_code_no`:
defined (`some`) only for non-empty all-digit strings; `none` models the
`ValueError` raised e.g. on a string containing `'.'`. -/
def pyInt? (cs : List Char) : Option Nat :=
  if cs ≠ [] && cs.all isDigitC then some (digitsToNat cs) else none

/-- `Decimal(s)` / `float(s)` on a string of shape `digits [. digits]`
(commas already removed by the callers); exact rational value. -/
def pyDec? (cs : List Char) : Option ℚ :=
  let intPart := cs.takeWhile isDigitC
  let rest := cs.dropWhile isDigitC
  if intPart = [] then none
  else match rest with
    | [] => some (digitsToNat intPart : ℚ)
    | '.' :: frac =>
        if frac.all isDigitC then
          some ((digitsToNat intPart : ℚ) + (digitsToNat frac : ℚ) / (10 ^ frac.length : ℚ))
        else none
    | _ => none

/-- `s.replace(',', '')`. -/
def dropCommas (cs : List Char) : List Char := cs.filter (fun c => c ≠ ',')

/-- First index (if any) at which `pat` occurs as a contiguous sublist. -/
def findSub (hay pat : List Char) : Option Nat :=
  let rec go : List Char → Nat → Option Nat
    | [], i => if pat = [] then some i else none
    | c :: rest, i =>
        if pat.isPrefixOf (c :: rest) then some i else go rest (i + 1)
  go hay 0

/-- Python `pat in hay` substring test. -/
def containsSub (hay pat : List Char) : Bool := (findSub hay pat).isSome

/-- Python `hay.replace(pat, repl, 1)` : replace the first occurrence. -/
def replaceFirst (hay pat repl : List Char) : List Char :=
  match findSub hay pat with
  | none => hay
  | some i => hay.take i ++ repl ++ hay.drop (i + pat.length)

/-- `str.endswith(suffix)` after `str.lower()`, used for filename checks. -/
def endsWithLower (fn suffix : String) : Bool :=
  suffix.toList.isSuffixOf (pyLower fn.toList)

/-! ### A small backtracking regex engine

Patterns from the Python source are embedded as `RE` values and run by a
fueled CPS matcher.  Branch exploration order matches Python `re`:
alternation tries the left branch first, greedy repetition tries the
longer match first, lazy repetition the shorter, and search tries start
positions left to right.  Fuel only bounds repetition unfolding; all
call sites pass ample fuel for the input length (each repetition body of
every embedded pattern consumes at least one character). -/

/-- Regex syntax: `pred` is a single-character class, `star` a
repetition (`lazy = true` for `*?`), `grp` a numbered capture group,
`wb` the word boundary `\b`, `bos`/`eos` the anchors `^`/`$`
(no-multiline semantics). -/
inductive RE where
  | eps : RE
  | pred : (Char → Bool) → RE
  | seq : RE → RE → RE
  | alt : RE → RE → RE
  | star : Bool → RE → RE
  | grp : Nat → RE → RE
  | wb : RE
  | bos : RE
  | eos : RE

/-- Matcher state: character before the current position (for `\b`/`^`),
remaining input, captures recorded so far (most recent first). -/
structure MSt where
  prev : Option Char
  rest : List Char
  caps : List (Nat × List Char)

/-- CPS backtracking matcher.  `k` is the continuation receiving the
state after `r` has matched; the result is the first success in
Python's exploration order.  Recursion is structural on the fuel, which
is decremented on every recursive call; `none` on fuel exhaustion.  The
fuel used at every call site (`fuelFor`) strictly exceeds the nesting
depth any pattern in this file can reach on its input, so exhaustion
never occurs in the evaluations below. -/
def mrun : Nat → RE → MSt → (MSt → Option MSt) → Option MSt
  | 0, _, _, _ => none
  | _ + 1, .eps, s, k => k s
  | _ + 1, .pred p, s, k =>
      match s.rest with
      | [] => none
      | c :: cs => if p c then k ⟨some c, cs, s.caps⟩ else none
  | fuel + 1, .seq a b, s, k => mrun fuel a s (fun s' => mrun fuel b s' k)
  | fuel + 1, .alt a b, s, k => mrun fuel a s k <|> mrun fuel b s k
  | fuel + 1, .star lazy a, s, k =>
      if lazy then
        k s <|> mrun fuel a s (fun s' => mrun fuel (.star lazy a) s' k)
      else
        mrun fuel a s (fun s' => mrun fuel (.star lazy a) s' k) <|> k s
  | fuel + 1, .grp n a, s, k =>
      mrun fuel a s (fun s' =>
        k ⟨s'.prev, s'.rest, (n, s.rest.take (s.rest.length - s'.rest.length)) :: s'.caps⟩)
  | _ + 1, .wb, s, k =>
      let pw := match s.prev with | some c => isWordC c | none => false
      let nw := match s.rest with | c :: _ => isWordC c | [] => false
      if pw ≠ nw then k s else none
  | _ + 1, .bos, s, k => if s.prev = none then k s else none
  | _ + 1, .eos, s, k =>
      match s.rest with
      | [] => k s
      | ['\n'] => k s
      | _ => none

/-- Result of a successful match: characters consumed and the captures
(first binding for a group number is the one that holds). -/
structure MRes where
  len : Nat
  caps : List (Nat × List Char)

/-- Capture group lookup. -/
def MRes.grp (m : MRes) (n : Nat) : List Char :=
  match m.caps.find? (fun p => p.1 = n) with
  | some p => p.2
  | none => []

/-- Standard fuel for an input: ample for every pattern in this file
(call depth is bounded by the pattern's syntactic size plus one step per
consumed character per repetition, and every repetition body consumes). -/
def fuelFor (cs : List Char) : Nat := 4 * cs.length + 500

/-- `re.match(r, s)` at a given position: `prev` is the character before
the position (`none` at the true string start). -/
def matchAt (r : RE) (prev : Option Char) (cs : List Char) : Option MRes :=
  match mrun (fuelFor cs) r ⟨prev, cs, []⟩ some with
  | some s => some ⟨cs.length - s.rest.length, s.caps⟩
  | none => none

/-- `re.match(r, s)` (anchored at the string start). -/
def reMatch (r : RE) (s : String) : Option MRes := matchAt r none s.toList

/-- `re.search` helper: leftmost start position admitting a match,
returning the (reversed-accumulator) prefix before the match, the match
result, and the suffix after the match. -/
def searchFrom (r : RE) (prev : Option Char) (acc : List Char) :
    List Char → Option (List Char × MRes × List Char)
  | [] =>
    match matchAt r prev [] with
    | some m => some (acc.reverse, m, [])
    | none => none
  | c :: rest =>
    match matchAt r prev (c :: rest) with
    | some m => some (acc.reverse, m, (c :: rest).drop m.len)
    | none => searchFrom r (some c) (c :: acc) rest

/-- `re.search(r, s)`. -/
def reSearch (r : RE) (s : String) : Option (List Char × MRes × List Char) :=
  searchFrom r none [] s.toList

/-! ### Pattern combinators mirroring regex syntax -/

/-- Sequence of patterns. -/
def rseq (rs : List RE) : RE := rs.foldr .seq .eps

/-- Alternation, left alternative preferred (regex `a|b|...`). -/
def ralt : List RE → RE
  | [] => .pred fun _ => false
  | [r] => r
  | r :: rs => .alt r (ralt rs)

/-- Literal string (case-sensitive). -/
def lit (s : String) : RE := rseq (s.toList.map fun c => .pred fun x => x = c)

/-- Literal string under `re.I` (ASCII case-insensitive). -/
def litI (s : String) : RE :=
  rseq (s.toList.map fun c => .pred fun x => lowerChar x = lowerChar c)

/-- `r+` (greedy). -/
def rplus (r : RE) : RE := .seq r (.star false r)

/-- `r+?` (lazy). -/
def rplusLazy (r : RE) : RE := .seq r (.star true r)

/-- `r?` (greedy). -/
def ropt (r : RE) : RE := .alt r .eps

/-- `r{n}`. -/
def rrep (r : RE) (n : Nat) : RE := rseq (List.replicate n r)

/-- `r{0,n}` (greedy). -/
def rupto (r : RE) : Nat → RE
  | 0 => .eps
  | n + 1 => .alt (.seq r (rupto r n)) .eps

/-- `r{lo,hi}` (greedy). -/
def rrange (r : RE) (lo hi : Nat) : RE := .seq (rrep r lo) (rupto r (hi - lo))

/-- `\d`. -/
def dC : RE := .pred isDigitC

/-- `\s`. -/
def sC : RE := .pred isSpaceC

/-- `.` (no DOTALL: anything but newline). -/
def dotC : RE := .pred fun c => c ≠ '\n'

/-- `\s+`. -/
def ws1 : RE := rplus sC

/-- `\s*`. -/
def wsStar : RE := .star false sC

/-- `[\d,]`. -/
def digitComma : RE := .pred fun c => isDigitC c || c = ','

/-- `re.finditer`: non-overlapping matches left to right, each with its
matched text.  Every pattern this file iterates consumes at least one
character per match, so fuel `|input| + 1` never runs out. -/
def findIterAux (r : RE) : Nat → Option Char → List Char → List (List Char × MRes)
  | 0, _, _ => []
  | fuel + 1, prev, cs =>
    match searchFrom r prev [] cs with
    | none => []
    | some (pre, m, post) =>
      let matched := (cs.drop pre.length).take m.len
      let prev' := (pre ++ matched).getLast?.orElse fun _ => prev
      (matched, m) :: findIterAux r fuel prev' post

/-- `re.finditer(r, s)`. -/
def findIter (r : RE) (s : String) : List (List Char × MRes) :=
  findIterAux r (s.toList.length + 1) none s.toList

/-- `re.sub(r, repl, s)` for patterns that always consume at least one
character (true of every substituted pattern in the source). -/
def reSubAux (r : RE) (repl : List Char) : Nat → Option Char → List Char → List Char
  | 0, _, cs => cs
  | fuel + 1, prev, cs =>
    match searchFrom r prev [] cs with
    | none => cs
    | some (pre, m, post) =>
      let matched := (cs.drop pre.length).take m.len
      let prev' := (pre ++ matched).getLast?.orElse fun _ => prev
      pre ++ repl ++ reSubAux r repl fuel prev' post

/-- `re.sub(r, repl, s)`. -/
def reSub (r : RE) (repl : String) (s : String) : String :=
  String.mk (reSubAux r repl.toList (s.toList.length + 1) none s.toList)

/-! ### Embedded patterns of the line-item parser -/

/-- The unit vocabulary `PCS|NOS|KG|HR|LTR|PC|UNT|BOX|SET|UNIT|PIECES|TYRE|TIRE`
in source order (alternation order is significant for matching). -/
def unitWords : List String :=
  ["PCS", "NOS", "KG", "HR", "LTR", "PC", "UNT", "BOX", "SET", "UNIT", "PIECES", "TYRE", "TIRE"]

/-- Case-sensitive unit alternation (tiers 1 and 2 compile without `re.I`). -/
def unitAlt : RE := ralt (unitWords.map lit)

/-- Case-insensitive unit alternation (the standalone unit scans use `re.I`). -/
def unitAltI : RE := ralt (unitWords.map litI)

/-- Money token `[\d,]+\.?\d{2}`. -/
def moneyRE : RE := rseq [rplus digitComma, ropt (lit "."), rrep dC 2]

/-- Tier 1 `pattern_complete`:
`^(.+?)\s+(UNITS)\s+(\d+)\s+([\d,]+\.?\d{2})\s+([\d,]+\.?\d{2})$`. -/
def pattern_complete : RE :=
  rseq [.bos, .grp 1 (rplusLazy dotC), ws1, .grp 2 unitAlt, ws1, .grp 3 (rplus dC),
        ws1, .grp 4 moneyRE, ws1, .grp 5 moneyRE, .eos]

/-- Tier 2 `pattern_with_unit`: `^(.+?)\s+(UNITS)\s+(\d+)\s+([\d,]+\.?\d{2})`. -/
def pattern_with_unit : RE :=
  rseq [.bos, .grp 1 (rplusLazy dotC), ws1, .grp 2 unitAlt, ws1, .grp 3 (rplus dC),
        ws1, .grp 4 moneyRE]

/-- Tier 3 `pattern_basic`: `(\d+)\s+([\d,]+\.?\d{2})`. -/
def pattern_basic : RE := rseq [.grp 1 (rplus dC), ws1, .grp 2 moneyRE]

/-- Tier 4 number token `([\d,]+\.?\d*)`. -/
def numberTokenRE : RE :=
  .grp 1 (rseq [rplus digitComma, ropt (lit "."), .star false dC])

/-- VAT-percentage fragment `\s*\d+\.?\d*%\s*` (stripped before tier matching). -/
def vatFragRE : RE :=
  rseq [wsStar, rplus dC, ropt (lit "."), .star false dC, lit "%", wsStar]

/-- Percentage fragment `\d+\.?\d*\%` (description cleanup). -/
def pctRE : RE := rseq [rplus dC, ropt (lit "."), .star false dC, lit "%"]

/-- Standalone unit scan `\b(UNITS)\b` with `re.I`. -/
def unitSearchRE : RE := rseq [.wb, .grp 1 unitAltI, .wb]

/-- Item-code scan `\b(\d{4,15})\b`. -/
def codeSearchRE : RE := rseq [.wb, .grp 1 (rrange dC 4 15), .wb]

/-- New-item line with code: `^(\d+)\.?\s+(\d{4,15})\s+(.+)$`. -/
def itemStartFullRE : RE :=
  rseq [.bos, .grp 1 (rplus dC), ropt (lit "."), ws1, .grp 2 (rrange dC 4 15),
        ws1, .grp 3 (rplus dotC), .eos]

/-- New-item line without code: `^(\d+)\.?\s+(.+)$`. -/
def itemStartSimpleRE : RE :=
  rseq [.bos, .grp 1 (rplus dC), ropt (lit "."), ws1, .grp 2 (rplus dotC), .eos]

/-- Unit-token removal `\b<unit>\b` with `re.I` (`re.escape` is the
identity on the letter-only unit vocabulary). -/
def unitBoundRE (u : String) : RE := rseq [.wb, litI u, .wb]

/-! ### `clean_description` -/

/-- Noise-word denylist of `clean_description`. -/
def noiseWords : List String := ["FOR", "CAR", "TYRES", "RIMS", "SMALL"]

/-- `\b<word>\b` with `re.I`. -/
def noiseWordRE (w : String) : RE := rseq [.wb, litI w, .wb]

/-- Character class `[-\s]`. -/
def isDashWs (c : Char) : Bool := c = '-' || isSpaceC c

/-- `re.sub(r'^[-\s]*|[-\s]*$', '', d)`: with no-multiline anchors this
removes exactly the maximal leading and trailing runs of `[-\s]`
characters (the alternative without `^`/`$` can only match at the string
edges), i.e. it strips the class at both ends. -/
def stripDashWs (cs : List Char) : List Char :=
  ((cs.dropWhile isDashWs).reverse.dropWhile isDashWs).reverse

/-- Isolated symbol fragment `\s+[-\*\.]\s+`. -/
def isolatedSymRE : RE :=
  rseq [ws1, .pred (fun c => c = '-' || c = '*' || c = '.'), ws1]

/-- `clean_description`: whitespace collapse, edge strip of `[-\s]`,
isolated-symbol removal, percentage removal, then the noise-word loop
(each removal followed by `strip()`), exactly in source order. -/
def clean_description (description : String) : String :=
  if description = "" then ""
  else
    let d := pyStrip (reSub ws1 " " description)
    let d := String.mk (stripDashWs d.toList)
    let d := reSub isolatedSymRE " " d
    let d := pyStrip (reSub pctRE "" d)
    noiseWords.foldl (fun d w => pyStrip (reSub (noiseWordRE w) "" d)) d

/-! ### Line items and the four parsing tiers -/

/-- One parsed line item (`qty` is `int(..)` of a digit group, hence a
natural number; `rate`/`value` are `Decimal` values embedded as `ℚ`). -/
structure LineItem where
  code : Option String
  description : String
  unit : Option String
  qty : Nat
  rate : ℚ
  value : ℚ
deriving DecidableEq, Repr

/-- One accumulated fragment line: `{'code': ..., 'line': ...}`. -/
structure Frag where
  code : Option String
  line : String
deriving DecidableEq, Repr

/-- Raw capture texts of a tier-1 match. -/
structure T1 where
  desc : List Char
  unitTok : List Char
  qtyTok : List Char
  rateTok : List Char
  valueTok : List Char
deriving DecidableEq, Repr

/-- Raw capture texts of a tier-2 match. -/
structure T2 where
  desc : List Char
  unitTok : List Char
  qtyTok : List Char
  rateTok : List Char
deriving DecidableEq, Repr

/-- `re.search(pattern_complete, cleaned_text)`, captures extracted. -/
def tier1 (cleaned : String) : Option T1 :=
  match reSearch pattern_complete cleaned with
  | some (_, m, _) => some ⟨m.grp 1, m.grp 2, m.grp 3, m.grp 4, m.grp 5⟩
  | none => none

/-- `re.search(pattern_with_unit, cleaned_text)`, captures extracted. -/
def tier2 (cleaned : String) : Option T2 :=
  match reSearch pattern_with_unit cleaned with
  | some (_, m, _) => some ⟨m.grp 1, m.grp 2, m.grp 3, m.grp 4⟩
  | none => none

/-- `if item_code and item_code in description: description =
description.replace(item_code, '', 1).strip()` (shared by all tiers). -/
def removeCodeL (item_code : Option String) (d : List Char) : List Char :=
  match item_code with
  | some c =>
      if c ≠ "" && containsSub d c.toList then pyStripL (replaceFirst d c.toList []) else d
  | none => d

/-- Build the tier-1 result dict: every field comes from its own capture
group; in particular `value` is group 5 verbatim, never `qty * rate`. -/
def mkTier1Item (item_code : Option String) (t : T1) : LineItem :=
  let description := pyStripL t.desc
  let unit := pyUpper t.unitTok
  let qty := digitsToNat t.qtyTok
  let rate := (pyDec? (dropCommas t.rateTok)).getD 0
  let value := (pyDec? (dropCommas t.valueTok)).getD 0
  let description := removeCodeL item_code description
  { code := item_code, description := clean_description (String.mk description),
    unit := some (String.mk unit), qty := qty, rate := rate, value := value }

/-- Build the tier-2 result dict: no trailing value group, so
`value = rate * qty`. -/
def mkTier2Item (item_code : Option String) (t : T2) : LineItem :=
  let description := pyStripL t.desc
  let unit := pyUpper t.unitTok
  let qty := digitsToNat t.qtyTok
  let rate := (pyDec? (dropCommas t.rateTok)).getD 0
  let value := rate * (qty : ℚ)
  let description := removeCodeL item_code description
  { code := item_code, description := clean_description (String.mk description),
    unit := some (String.mk unit), qty := qty, rate := rate, value := value }

/-- Unit recovered by the standalone scan (tiers 3 and 4). -/
def scanUnit (text : String) : Option String :=
  match reSearch unitSearchRE text with
  | some (_, m, _) => some (String.mk (pyUpper (m.grp 1)))
  | none => none

/-- Build the tier-3 result from the `pattern_basic` matches of `text`
(first match supplies the quantity, second the rate; value recomputed). -/
def mkTier3Item (item_code : Option String) (text : String)
    (ms : List (List Char × MRes)) : LineItem :=
  let qty := digitsToNat (((ms.get? 0).map (fun p => p.2.grp 1)).getD [])
  let rate := (pyDec? (dropCommas (((ms.get? 1).map (fun p => p.2.grp 2)).getD []))).getD 0
  let value := rate * (qty : ℚ)
  let unit := scanUnit text
  let d := removeCodeL item_code text.toList
  let d := ms.reverse.foldl (fun d p => pyStripL (replaceFirst d p.1 [])) d
  let d := match unit with
    | some u => pyStripL (reSub (unitBoundRE u) "" (String.mk d)).toList
    | none => d
  let d := pyStripL (reSub pctRE "" (String.mk d)).toList
  { code := item_code, description := clean_description (String.mk d),
    unit := unit, qty := qty, rate := rate, value := value }

/-- A numeric token collected by the tier-4 heuristic:
`{'value': num, 'original': ..., 'is_integer': num == int(num) and num < 10000}`. -/
structure NumTok where
  value : ℚ
  original : List Char
  isInt : Bool
deriving DecidableEq, Repr

/-- Minimum of a value list (`min(...)` on a non-empty list). -/
def qMin : List ℚ → ℚ
  | [] => 0
  | x :: xs => xs.foldl min x

/-- Maximum of a value list (`max(...)` on a non-empty list). -/
def qMax : List ℚ → ℚ
  | [] => 0
  | x :: xs => xs.foldl max x

/-- Stable insertion for the descending-by-length sort of
`sorted(numbers, key=lambda x: len(x['original']), reverse=True)`. -/
def insertLenDesc (x : NumTok) : List NumTok → List NumTok
  | [] => [x]
  | y :: ys =>
      if x.original.length ≤ y.original.length then y :: insertLenDesc x ys
      else x :: y :: ys

/-- Stable sort, longest `original` first (Python `sorted` is stable). -/
def sortLenDesc (l : List NumTok) : List NumTok :=
  l.foldl (fun acc x => insertLenDesc x acc) []

/-- Python `int(x)` on a non-negative number (truncation; the values it
is applied to are positive integers, for which this is exact). -/
def pyIntOfQ (q : ℚ) : Nat := (q.num.tdiv q.den).toNat

/-- Tier 4 fallback: collect numeric tokens of the VAT-stripped text,
classify quantities/rates by the magnitude heuristic, rebuild the
description from the raw text, and discard the item when the rebuilt
description (before `clean_description`) is shorter than 2 characters.
`float`/`Decimal` arithmetic is embedded exactly over `ℚ`. -/
def tier4 (item_code : Option String) (full_text cleaned_text : String) : Option LineItem :=
  let numbers := (findIter numberTokenRE cleaned_text).filterMap fun p =>
    match pyDec? (dropCommas (p.2.grp 1)) with
    | some v => some (⟨v, p.2.grp 1, v.den = 1 && v < 10000⟩ : NumTok)
    | none => none
  let unit := scanUnit cleaned_text
  let quantities := numbers.filter fun n => n.isInt && 0 < n.value && n.value < 1000
  let potential_rates := numbers.filter fun n => !n.isInt || 1000 ≤ n.value
  let qrv : Nat × ℚ × ℚ :=
    if quantities ≠ [] && potential_rates ≠ [] then
      let quantity := pyIntOfQ (qMin (quantities.map fun q => q.value))
      let largest := qMax (potential_rates.map (fun r => r.value))
      if 1000 < largest then (quantity, largest / (quantity : ℚ), largest)
      else (quantity, largest, largest * (quantity : ℚ))
    else if quantities ≠ [] then
      (pyIntOfQ (qMin (quantities.map fun q => q.value)), 0, 0)
    else if potential_rates ≠ [] then
      (1, qMax (potential_rates.map (fun r => r.value)),
       qMax (potential_rates.map (fun r => r.value)))
    else (1, 0, 0)
  let d := removeCodeL item_code full_text.toList
  let d := (sortLenDesc numbers).foldl (fun d n => pyStripL (replaceFirst d n.original [])) d
  let d := match unit with
    | some u => pyStripL (reSub (unitBoundRE u) "" (String.mk d)).toList
    | none => d
  let d := pyStripL (reSub pctRE "" (String.mk d)).toList
  if d.length < 2 then none
  else some { code := item_code, description := clean_description (String.mk d),
              unit := unit, qty := qrv.1, rate := qrv.2.1, value := qrv.2.2 }

/-- `full_text = ' '.join(line['line'] for line in item_lines)`. -/
def fullTextOf (item_lines : List Frag) : String :=
  String.intercalate " " (item_lines.map fun f => f.line)

/-- The item code: the one carried by the first fragment, else the
first `\b(\d{4,15})\b` found in the joined text. -/
def itemCodeOf (item_lines : List Frag) : Option String :=
  match (item_lines.headD ⟨none, ""⟩).code with
  | some c => some c
  | none =>
      match reSearch codeSearchRE (fullTextOf item_lines) with
      | some (_, m, _) => some (String.mk (m.grp 1))
      | none => none

/-- `cleaned_text`: the joined text with VAT-percentage fragments
replaced by a space, then stripped. -/
def cleanedTextOf (item_lines : List Frag) : String :=
  pyStrip (reSub vatFragRE " " (fullTextOf item_lines))

/-- `parse_item_complete`: concatenate the fragments, recover a missing
item code by scanning for `\b(\d{4,15})\b`, strip VAT-percentage
fragments, then try the four tiers in source order.  Tiers 1, 2 and 4
read `cleaned_text`; tier 3 (`pattern_basic`) reads the unstripped
`full_text`, as in the source. -/
def parse_item_complete (item_lines : List Frag) (item_number : String) : Option LineItem :=
  match item_lines with
  | [] => none
  | _ :: _ =>
    let _ := item_number
    let full_text := fullTextOf item_lines
    let item_code := itemCodeOf item_lines
    let cleaned_text := cleanedTextOf item_lines
    match tier1 cleaned_text with
    | some t => some (mkTier1Item item_code t)
    | none =>
      match tier2 cleaned_text with
      | some t => some (mkTier2Item item_code t)
      | none =>
        let matches_basic := findIter pattern_basic full_text
        if 2 ≤ matches_basic.length then some (mkTier3Item item_code full_text matches_basic)
        else tier4 item_code full_text cleaned_text

/-- The per-item parser as the specification describes it: identical to
`parse_item_complete` except that tier 3 also reads the VAT-stripped
`cleaned_text`.  Used only to compare the spec's description against the
source behaviour. -/
def claimed_parse_item_complete (item_lines : List Frag) (item_number : String) :
    Option LineItem :=
  match item_lines with
  | [] => none
  | _ :: _ =>
    let _ := item_number
    let full_text := fullTextOf item_lines
    let item_code := itemCodeOf item_lines
    let cleaned_text := cleanedTextOf item_lines
    match tier1 cleaned_text with
    | some t => some (mkTier1Item item_code t)
    | none =>
      match tier2 cleaned_text with
      | some t => some (mkTier2Item item_code t)
      | none =>
        let matches_basic := findIter pattern_basic cleaned_text
        if 2 ≤ matches_basic.length then some (mkTier3Item item_code cleaned_text matches_basic)
        else tier4 item_code full_text cleaned_text

/-! ### `extract_line_items_corrected` -/

/-- The seven header keyword patterns (all searched with `re.I`). -/
def header_keywords : List RE :=
  [ rseq [.wb, .grp 1 (ralt [litI "Sr",
      rseq [litI "S", ropt (lit "."), litI "N", ropt (litI "o"), ropt (lit ".")],
      rseq [litI "N", litI "o", ropt (lit ".")], lit "#"]), .wb],
    rseq [.wb, .grp 1 (ralt [rseq [litI "Item", wsStar, litI "Code"],
      litI "Code", litI "Item"]), .wb],
    rseq [.wb, .grp 1 (ralt [litI "Description", litI "Desc"]), .wb],
    rseq [.wb, .grp 1 (ralt [litI "Type", litI "Unit"]), .wb],
    rseq [.wb, .grp 1 (ralt [litI "Qty", litI "Quantity"]), .wb],
    rseq [.wb, .grp 1 (ralt [litI "Rate", litI "Price",
      rseq [litI "Unit", wsStar, litI "Price"]]), .wb],
    rseq [.wb, .grp 1 (ralt [litI "Value", litI "Amount", litI "Total"]), .wb] ]

/-- `keyword_count` of a line: how many keyword patterns find a match. -/
def keywordCount (line : String) : Nat :=
  (header_keywords.filter fun r => (reSearch r line).isSome).length

/-- End-of-table marker
`(Net\s*Value|Gross\s*Value|Grand\s*Total|Total\s*Amount|Sub.*Total|Page\s*\d+|Customer\s*Information|Thank|Notes?)`
searched with `re.I`. -/
def sectionBreakRE : RE :=
  .grp 1 (ralt
    [ rseq [litI "Net", wsStar, litI "Value"],
      rseq [litI "Gross", wsStar, litI "Value"],
      rseq [litI "Grand", wsStar, litI "Total"],
      rseq [litI "Total", wsStar, litI "Amount"],
      rseq [litI "Sub", .star false dotC, litI "Total"],
      rseq [litI "Page", wsStar, rplus dC],
      rseq [litI "Customer", wsStar, litI "Information"],
      litI "Thank",
      rseq [litI "Note", ropt (litI "s")] ])

/-- True when a line matches the end-of-table marker. -/
def isSectionBreak (line : String) : Bool := (reSearch sectionBreakRE line).isSome

/-- First index whose line matches at least 4 of the 7 keyword patterns
(the table-header heuristic). -/
def findHeaderIdx : List String → Option Nat
  | [] => none
  | l :: rest =>
      if 4 ≤ keywordCount l then some 0
      else (findHeaderIdx rest).map (· + 1)

/-- Append a parsed item to the result list only when it exists and its
description is truthy: `if parsed_item and parsed_item.get('description')`. -/
def emitItem (it : Option LineItem) (acc : List LineItem) : List LineItem :=
  match it with
  | some item => if item.description ≠ "" then acc ++ [item] else acc
  | none => acc

/-- Flush the item currently being accumulated (if any) through
`parse_item_complete` and the emission filter. -/
def flushCur (cur : Option (String × List Frag)) (acc : List LineItem) : List LineItem :=
  match cur with
  | some (n, fr) => emitItem (parse_item_complete fr n) acc
  | none => acc

/-- The scan loop over the lines after the table header.  The `elif`
guard of the source (`simple pattern matches and the code-shaped prefix
does not`) is the complement of the full new-item pattern: on a
whitespace-stripped line the prefix pattern `^(\d+)\.?\s+(\d{4,15})\s+`
matches exactly when the full pattern `^(\d+)\.?\s+(\d{4,15})\s+(.+)$`
does, because a matching `\s+` run cannot reach the end of a stripped
line, so at least one further character always exists for `(.+)$`. -/
def scanItems : List String → Option (String × List Frag) → List LineItem → List LineItem
  | [], cur, acc => flushCur cur acc
  | l :: rest, cur, acc =>
    let line := pyStrip l
    if isSectionBreak line then flushCur cur acc
    else if line = "" then scanItems rest cur acc
    else
      match reMatch itemStartFullRE line with
      | some m =>
          scanItems rest
            (some (String.mk (m.grp 1), [⟨some (String.mk (m.grp 2)), String.mk (m.grp 3)⟩]))
            (flushCur cur acc)
      | none =>
        match reMatch itemStartSimpleRE line with
        | some m =>
            scanItems rest
              (some (String.mk (m.grp 1), [⟨none, String.mk (m.grp 2)⟩]))
              (flushCur cur acc)
        | none =>
          match cur with
          | some (n, fr) => scanItems rest (some (n, fr ++ [⟨none, line⟩])) acc
          | none => scanItems rest none acc

/-- `extract_line_items_corrected`: locate the table header, then run
the accumulating scan over the following lines. -/
def extract_line_items_corrected (lines : List String) : List LineItem :=
  match findHeaderIdx lines with
  | none => []
  | some i => scanItems (lines.drop (i + 1)) none []

/-! ### `is_valid_code_no`

The anchored `re.match(..., candidate)` patterns of the validator are
translated structurally (each definition is annotated with its
pattern).  Since the separators in the date pattern are not digits,
maximal digit runs coincide with what the backtracking `\d{m,n}` can
match, so `takeWhile`/`dropWhile` decompositions are exact. -/

/-- Date separator class `[/\-]`. -/
def isSep (c : Char) : Bool := c = '/' || c = '-'

/-- `^\d{1,2}[/\-]\d{1,2}[/\-]\d{2,4}$`. -/
def isDateShaped (cs : List Char) : Bool :=
  let d1 := cs.takeWhile isDigitC
  match cs.dropWhile isDigitC with
  | s1 :: t1 =>
      isSep s1 && 1 ≤ d1.length && d1.length ≤ 2 &&
      (let d2 := t1.takeWhile isDigitC
       match t1.dropWhile isDigitC with
       | s2 :: t2 =>
           isSep s2 && 1 ≤ d2.length && d2.length ≤ 2 &&
           (let d3 := t2.takeWhile isDigitC
            t2.dropWhile isDigitC = [] && 2 ≤ d3.length && d3.length ≤ 4)
       | [] => false)
  | [] => false

/-- `^\d+\.?\d*$`: one or more digits, an optional single dot, then
digits to the end. -/
def isPureNumeric : List Char → Bool
  | [] => false
  | c :: rest =>
      isDigitC c && (c :: rest).all (fun x => isDigitC x || x = '.') &&
      (c :: rest).count '.' ≤ 1

/-- The false-positive label list of `is_valid_code_no` (the anchored
exact labels among its `invalid_patterns`, lowercase). -/
def invalidLabels : List (List Char) :=
  ["total", "subtotal", "vat", "tax", "amount", "invoice", "proforma",
   "customer", "name", "address", "phone", "email", "ref", "reference",
   "date", "terms"].map String.toList

/-- The `invalid_patterns` check (each an anchored `re.match` with
`re.I`): the exact labels, plus `^page\d*$` and `^\d+of\d+$`. -/
def isInvalidLabel (cs : List Char) : Bool :=
  let l := pyLower cs
  invalidLabels.contains l ||
  (l.take 4 = "page".toList && (l.drop 4).all isDigitC) ||
  (match l.dropWhile isDigitC with
   | 'o' :: 'f' :: rest =>
       1 ≤ (l.takeWhile isDigitC).length && rest ≠ [] && rest.all isDigitC
   | _ => false)

/-- `^[A-Z0-9\-_/]{3,20}$` with `re.I`. -/
def isCodeShape (cs : List Char) : Bool :=
  3 ≤ cs.length && cs.length ≤ 20 &&
  cs.all fun c => isAlphaC c || isDigitC c || c = '-' || c = '_' || c = '/'

/-- The tail of `is_valid_code_no` after the date / pure-numeric
rejections: label denylist, then the acceptance rules (any letter, or
numeric content with length ≤ 8, or the generic code shape). -/
def isValidCodeNoTail (cs : List Char) : Option Bool :=
  if isInvalidLabel cs then some false
  else
    let has_letters := cs.any isAlphaC
    let has_numbers := cs.any isDigitC
    if has_letters || (has_numbers && cs.length ≤ 8) then some true
    else if isCodeShape cs then some true
    else some false

/-- `is_valid_code_no`.  Returns `none` for the one input family on
which the Python function raises (`int(candidate)` on a pure-numeric
candidate of length ≤ 6 containing a dot, a `ValueError`); `some b`
models a normal return of `b`. -/
def is_valid_code_no (candidate : String) : Option Bool :=
  let cs := candidate.toList
  if cs.length < 2 then some false
  else if isDateShaped cs then some false
  else if isPureNumeric cs then
    if 6 < cs.length then some false
    else
      match pyInt? cs with
      | none => none
      | some n =>
          if 100000 < n then some false
          else isValidCodeNoTail cs
  else isValidCodeNoTail cs

/-! ### `extract_text_from_pdf` (backend trial order)

The two extraction libraries are external; each backend is modelled by
its observable behaviour: absent, a page-text list, or an exception
carrying `str(e)`. -/

/-- Observable behaviour of one extraction backend. -/
inductive Backend where
  | unavailable : Backend
  | pages : List String → Backend
  | raises : String → Backend
deriving DecidableEq, Repr

/-- The page loop `for page: if page_text: text += page_text + "\n"`,
starting from the text accumulated so far. -/
def pagesText (init : String) (ps : List String) : String :=
  ps.foldl (fun acc p => if p ≠ "" then acc ++ p ++ "\n" else acc) init

/-- `if text and text.strip():` — non-empty and non-blank. -/
def usableText (t : String) : Bool := t ≠ "" && pyStrip t ≠ ""

/-- Error message when neither library is importable. -/
def noLibMsg : String := "No PDF extraction library available. Install PyMuPDF or PyPDF2."

/-- Composed message when both backends were tried and both failed. -/
def composedMsg (fe pe : String) : String :=
  "PDF extraction failed - PyMuPDF: " ++ fe ++ ". PyPDF2: " ++ pe

/-- `extract_text_from_pdf`: try PyMuPDF, return its text immediately if
usable; otherwise try PyPDF2 (appending to any blank remnant, as the
source does); on overall failure raise (`Except.error`) the composed
message. -/
def extract_text_from_pdf (fitz PyPDF2que : Backend) : Except String String :=
  let fitzStep : Sum String (String × Option String) :=
    match fitz with
    | .unavailable => .inr ("", none)
    | .pages ps =>
        let t := pagesText "" ps
        if usableText t then .inl t
        else .inr (t, some "No text found in PDF (PyMuPDF)")
    | .raises e => .inr ("", some e)
  match fitzStep with
  | .inl t => .ok t
  | .inr (text0, fitzError) =>
    let pdf2Step : Sum String (Option String) :=
      match PyPDF2que with
      | .unavailable => .inr none
      | _ =>
        if pyStrip text0 ≠ "" then .inr none
        else
          match PyPDF2que with
          | .pages [] => .inr (some "PDF has no pages")
          | .pages ps =>
              let t := pagesText text0 ps
              if usableText t then .inl t
              else .inr (some "No text found in PDF (PyPDF2)")
          | .raises e => .inr (some e)
          | .unavailable => .inr none
    match pdf2Step with
    | .inl t => .ok t
    | .inr pdf2Error =>
      if fitz = .unavailable ∧ PyPDF2que = .unavailable then .error noLibMsg
      else
        match fitzError, pdf2Error with
        | some fe, some pe => .error (composedMsg fe pe)
        | some fe, none => .error fe
        | none, some pe => .error pe
        | none, none => .error "Unknown PDF extraction error"

/-! ### `extract_from_bytes` -/

/-- The parsed-invoice dict produced by `parse_invoice_data` (monetary
fields are `Decimal` or `None`, embedded as `Option ℚ`). -/
structure Parsed where
  invoice_no : Option String := none
  code_no : Option String := none
  date : Option String := none
  customer_name : Option String := none
  phone : Option String := none
  email : Option String := none
  address : Option String := none
  reference : Option String := none
  subtotal : Option ℚ := none
  tax : Option ℚ := none
  total : Option ℚ := none
  items : List LineItem := []
  payment_method : Option String := none
  delivery_terms : Option String := none
  remarks : Option String := none
  attended_by : Option String := none
  kind_attention : Option String := none
  seller_name : Option String := none
  seller_address : Option String := none
  seller_phone : Option String := none
  seller_email : Option String := none
  seller_tax_id : Option String := none
  seller_vat_reg : Option String := none
deriving DecidableEq, Repr

/-- Python truthiness of an optional string (absent or empty is falsy). -/
def truthyS : Option String → Bool
  | some s => s ≠ ""
  | none => false

/-- Python truthiness of an optional number (absent or zero is falsy). -/
def truthyQ : Option ℚ → Bool
  | some q => q ≠ 0
  | none => false

/-- `float(x) if x else None`: a `Decimal` equal to 0 is falsy, so an
extracted zero is reported as absent. -/
def pyFloatOpt : Option ℚ → Option ℚ
  | some q => if q ≠ 0 then some q else none
  | none => none

/-- The assembled `header` dict of a successful text parse. -/
structure Header where
  invoice_no : Option String
  code_no : Option String
  date : Option String
  customer_name : Option String
  phone : Option String
  email : Option String
  address : Option String
  reference : Option String
  subtotal : Option ℚ
  tax : Option ℚ
  total : Option ℚ
  payment_method : Option String
  delivery_terms : Option String
  remarks : Option String
  attended_by : Option String
  kind_attention : Option String
deriving DecidableEq, Repr

/-- Header assembly (lines 750–767): strings pass through, monetary
fields are converted by `float(...) if ... else None`. -/
def mkHeader (parsed : Parsed) : Header where
  invoice_no := parsed.invoice_no
  code_no := parsed.code_no
  date := parsed.date
  customer_name := parsed.customer_name
  phone := parsed.phone
  email := parsed.email
  address := parsed.address
  reference := parsed.reference
  subtotal := pyFloatOpt parsed.subtotal
  tax := pyFloatOpt parsed.tax
  total := pyFloatOpt parsed.total
  payment_method := parsed.payment_method
  delivery_terms := parsed.delivery_terms
  remarks := parsed.remarks
  attended_by := parsed.attended_by
  kind_attention := parsed.kind_attention

/-- One formatted output item: `value` falls back to `0.0` when falsy,
`rate` to `None`. -/
structure FormattedItem where
  description : String
  qty : Nat
  unit : Option String
  code : Option String
  value : ℚ
  rate : Option ℚ
deriving DecidableEq, Repr

/-- Item formatting loop (lines 770–779). -/
def formatItems (items : List LineItem) : List FormattedItem :=
  items.map fun item =>
    { description := item.description,
      qty := item.qty,
      unit := item.unit,
      code := item.code,
      value := if item.value ≠ (0 : ℚ) then item.value else 0,
      rate := if item.rate ≠ (0 : ℚ) then some item.rate else none }

/-- The result dict of `extract_from_bytes` (`header` is `none` for the
empty dict `{}` that error outcomes carry). -/
structure Outcome where
  success : Bool
  error : Option String
  message : String
  ocr_available : Bool
  header : Option Header
  items : List FormattedItem
  raw_text : String
deriving DecidableEq, Repr

/-- `has_data`: any of customer name, invoice number, at least one
formatted item, or a (truthy) total. -/
def hasData (header : Header) (formatted : List FormattedItem) : Bool :=
  truthyS header.customer_name || truthyS header.invoice_no ||
  formatted.length > 0 || truthyQ header.total

/-- Lines 746–817: assemble header and items from a parsed dict and
classify success vs `parsing_failed` (the caught-exception branch also
returns `parsing_failed` with the same payload). -/
def processText (text : String) (parsed : Parsed) : Outcome :=
  let header := mkHeader parsed
  let formatted := formatItems parsed.items
  if hasData header formatted then
    { success := true, error := none,
      message := "Invoice data extracted successfully",
      ocr_available := false, header := some header, items := formatted,
      raw_text := text }
  else
    { success := false, error := some "parsing_failed",
      message := "Could not extract structured data from PDF.",
      ocr_available := false, header := none, items := [], raw_text := text }

/-- First four bytes of a PDF: `b'%PDF'`. -/
def pdfMagic : List UInt8 := [0x25, 0x50, 0x44, 0x46]

/-- The image filename extensions. -/
def imageExts : List String := [".jpg", ".jpeg", ".png", ".gif", ".tiff", ".bmp"]

/-- `extract_from_bytes`, with the PDF text-extraction step abstracted
by its outcome (`pdfText`, the behaviour of `extract_text_from_pdf` on
these bytes) and the text parse abstracted by `parseOf` (the behaviour
of `parse_invoice_data`). -/
def extract_from_bytes (file_bytes : List UInt8) (filename : String)
    (pdfText : Except String String) (parseOf : String → Parsed) : Outcome :=
  if file_bytes = [] then
    { success := false, error := some "empty_file", message := "File is empty.",
      ocr_available := false, header := none, items := [], raw_text := "" }
  else
    let is_pdf := endsWithLower filename ".pdf" ||
      (4 < file_bytes.length && file_bytes.take 4 = pdfMagic)
    let is_image := imageExts.any fun ext => endsWithLower filename ext
    if is_image then
      { success := false, error := some "image_file_not_supported",
        message := "Image files are not supported.", ocr_available := false,
        header := none, items := [], raw_text := "" }
    else if !is_pdf then
      { success := false, error := some "unsupported_file_type",
        message := "Please upload a PDF file.", ocr_available := false,
        header := none, items := [], raw_text := "" }
    else
      match pdfText with
      | .error e =>
          { success := false, error := some "pdf_extraction_failed",
            message := "Could not extract text from PDF: " ++ e,
            ocr_available := false, header := none, items := [], raw_text := "" }
      | .ok text =>
          if pyStrip text = "" then
            { success := false, error := some "no_text_extracted",
              message := "No readable text found in PDF.", ocr_available := false,
              header := none, items := [], raw_text := "" }
          else processText text (parseOf text)

/-! ### `build_invoice_json` -/

/-- Round half to even at two decimal places (Python `round(x, 2)`; the
source computes on binary floats, whose representation noise this exact
embedding does not reproduce — the claims concern only the guard and the
two-decimal rounding). -/
def round2 (x : ℚ) : ℚ :=
  let y := x * 100
  let f : ℤ := y.num.fdiv y.den
  let r := y - (f : ℚ)
  let n : ℤ :=
    if r < 1 / 2 then f
    else if 1 / 2 < r then f + 1
    else if f % 2 = 0 then f else f + 1
  (n : ℚ) / 100

/-- `seller_details` block (absent fields become `''`). -/
structure SellerDetails where
  name : String
  address : String
  phone : String
  email : String
  vat_number : String
deriving DecidableEq, Repr

/-- `customer_details` block. -/
structure CustomerDetails where
  code : String
  name : String
  address : String
  contact_person : String
  phone : String
  email : String
deriving DecidableEq, Repr

/-- One output item of the canonical document (`rate`/`value` are a
float or the empty string `''`, embedded as `Option ℚ`; `vat_percent`
is always `''`). -/
structure DocItem where
  sr_no : Nat
  item_code : String
  description : String
  type_ : String
  quantity : Nat
  rate : Option ℚ
  value : Option ℚ
  vat_percent : Option ℚ
deriving DecidableEq, Repr

/-- `totals` block (each field a float or `''`, embedded as `Option ℚ`). -/
structure Totals where
  sub_total : Option ℚ
  vat_amount : Option ℚ
  vat_percent : Option ℚ
  discount : Option ℚ
  grand_total : Option ℚ
deriving DecidableEq, Repr

/-- `invoice_metadata` block. -/
structure InvoiceMetadata where
  invoice_type : String
  invoice_number : String
  customer_reference : String
  issue_date : String
deriving DecidableEq, Repr

/-- The canonical invoice document. -/
structure InvoiceDoc where
  invoice_metadata : InvoiceMetadata
  seller_details : SellerDetails
  customer_details : CustomerDetails
  items : List DocItem
  totals : Totals
  footer_notes : String
deriving DecidableEq, Repr

/-- `x or ''` on an optional string. -/
def orEmpty : Option String → String
  | some s => s
  | none => ""

/-- Totals assembly (lines 853–865): `float(...) if ... else ''`
conversions, then the VAT-percent derivation guarded by truthiness of
both converted fields and `sub_total > 0`. -/
def mkTotals (parsed : Parsed) : Totals :=
  let sub_total := pyFloatOpt parsed.subtotal
  let vat_amount := pyFloatOpt parsed.tax
  let grand_total := pyFloatOpt parsed.total
  let vat_percent : Option ℚ :=
    match sub_total, vat_amount with
    | some s, some v => if 0 < s then some (round2 (v / s * 100)) else none
    | _, _ => none
  { sub_total := sub_total, vat_amount := vat_amount,
    vat_percent := vat_percent, discount := none, grand_total := grand_total }

/-- Item-output loop of `build_invoice_json` (`enumerate(..., 1)`). -/
def mkDocItems (items : List LineItem) : List DocItem :=
  items.enum.map fun p =>
    { sr_no := p.1 + 1,
      item_code := orEmpty p.2.code,
      description := p.2.description,
      type_ := orEmpty p.2.unit,
      quantity := p.2.qty,
      rate := if p.2.rate ≠ (0 : ℚ) then some p.2.rate else none,
      value := if p.2.value ≠ (0 : ℚ) then some p.2.value else none,
      vat_percent := none }

/-- `build_invoice_json`.  The first statement evaluates
`parsed.get('invoice_no', '').upper()`; `parse_invoice_data` always
stores the key (possibly as `None`), so when `invoice_no` is absent the
lookup yields `None` and `.upper()` raises `AttributeError` —
modelled as `Except.error`. -/
def build_invoice_json (parsed : Parsed) : Except String InvoiceDoc :=
  match parsed.invoice_no with
  | none => .error "AttributeError: 'NoneType' object has no attribute 'upper'"
  | some inv =>
    let invoice_type :=
      if ("PI".toList).isPrefixOf (pyUpper inv.toList) then "Proforma Invoice" else "Invoice"
    .ok
      { invoice_metadata :=
          { invoice_type := invoice_type,
            invoice_number := inv,
            customer_reference := orEmpty parsed.reference,
            issue_date := orEmpty parsed.date },
        seller_details :=
          { name := orEmpty parsed.seller_name,
            address := orEmpty parsed.seller_address,
            phone := orEmpty parsed.seller_phone,
            email := orEmpty parsed.seller_email,
            vat_number := orEmpty parsed.seller_vat_reg },
        customer_details :=
          { code := orEmpty parsed.code_no,
            name := orEmpty parsed.customer_name,
            address := orEmpty parsed.address,
            contact_person := orEmpty parsed.kind_attention,
            phone := orEmpty parsed.phone,
            email := orEmpty parsed.email },
        items := mkDocItems parsed.items,
        totals := mkTotals parsed,
        footer_notes := orEmpty parsed.remarks }

/-! ## Helper lemmas -/

/-- A digit character is not changed by `str.lower`. -/
lemma lowerChar_digit {c : Char} (h : isDigitC c = true) : lowerChar c = c := by
  unfold lowerChar
  unfold isDigitC at h
  simp only [Bool.and_eq_true, decide_eq_true_eq] at h
  have : ¬(65 ≤ c.toNat && c.toNat ≤ 90) = true := by
    simp only [Bool.and_eq_true, decide_eq_true_eq]
    omega
  simp [this]

/-- An all-digit list is fully consumed by `dropWhile isDigitC`. -/
lemma dropWhile_digits {cs : List Char} (h : cs.all isDigitC = true) :
    cs.dropWhile isDigitC = [] := by
  refine List.dropWhile_eq_nil_iff.mpr ?_
  intro x hx
  exact List.all_eq_true.mp h x hx

/-- An all-digit list is pure-numeric and at least as long as 1 implies
`isPureNumeric`. -/
lemma isPureNumeric_of_digits {cs : List Char} (hne : cs ≠ [])
    (h : cs.all isDigitC = true) : isPureNumeric cs = true := by
  cases cs with
  | nil => exact absurd rfl hne
  | cons c rest =>
    have hall := List.all_eq_true.mp h
    have hc : isDigitC c = true := hall c (by simp)
    have hdot : (c :: rest).count '.' = 0 := by
      refine List.count_eq_zero.mpr ?_
      intro hmem
      have : isDigitC '.' = true := hall '.' hmem
      simp [isDigitC] at this
    have hall2 : ((c :: rest).all fun x => isDigitC x || decide (x = '.')) = true := by
      refine List.all_eq_true.mpr ?_
      intro x hx
      simp [hall x hx]
    simp [isPureNumeric, hc, hdot, hall2]

/-- An all-digit list is never date-shaped. -/
lemma isDateShaped_digits {cs : List Char} (h : cs.all isDigitC = true) :
    isDateShaped cs = false := by
  unfold isDateShaped
  rw [dropWhile_digits h]

/-- A list whose head is not a digit is never date-shaped. -/
lemma isDateShaped_head_not_digit {c : Char} {rest : List Char}
    (h : isDigitC c = false) : isDateShaped (c :: rest) = false := by
  unfold isDateShaped
  simp [List.dropWhile, List.takeWhile, h]

/-- A date-shaped candidate has at least 2 characters. -/
lemma isDateShaped_length {cs : List Char} (h : isDateShaped cs = true) :
    2 ≤ cs.length := by
  unfold isDateShaped at h
  rcases hd : cs.dropWhile isDigitC with _ | ⟨s1, t1⟩
  · rw [hd] at h; exact absurd h (by simp)
  · rw [hd] at h
    simp only [Bool.and_eq_true, decide_eq_true_eq] at h
    obtain ⟨⟨⟨_, h1⟩, _⟩, _⟩ := h
    have hlen : cs.length = (cs.takeWhile isDigitC).length + (s1 :: t1).length := by
      conv_lhs => rw [← List.takeWhile_append_dropWhile (p := isDigitC) (l := cs)]
      rw [hd, List.length_append]
    simp only [List.length_cons] at hlen
    omega

/-- `pyInt?` on an all-digit list. -/
lemma pyInt?_digits {cs : List Char} (hne : cs ≠ []) (h : cs.all isDigitC = true) :
    pyInt? cs = some (digitsToNat cs) := by
  unfold pyInt?
  simp [hne, h]

end PdfExtract

namespace PdfExtract

/-! ## Claim theorems -/

/-- C5: the code-number validator rejects every date-shaped candidate;
rejects every pure-numeric candidate longer than 6 digits, and every
pure-numeric candidate of at most 6 digits whose numeric value exceeds
100,000; rejects the fixed false-positive labels case-insensitively; in
particular it rejects "31/12/2024", rejects "500000", rejects "total",
and accepts "A01696". -/
theorem c5_code_validator :
    (∀ s : String, isDateShaped s.toList = true → is_valid_code_no s = some false) ∧
    (∀ s : String, s.toList.all isDigitC = true → 6 < s.toList.length →
      is_valid_code_no s = some false) ∧
    (∀ s : String, s.toList.all isDigitC = true → 2 ≤ s.toList.length →
      s.toList.length ≤ 6 → 100000 < digitsToNat s.toList →
      is_valid_code_no s = some false) ∧
    (∀ s : String, pyLower s.toList ∈ invalidLabels → is_valid_code_no s = some false) ∧
    is_valid_code_no "31/12/2024" = some false ∧
    is_valid_code_no "500000" = some false ∧
    is_valid_code_no "total" = some false ∧
    is_valid_code_no "A01696" = some true := by
  refine ⟨?_, ?_, ?_, ?_, by decide, by decide, by decide, by decide⟩
  · intro s h
    unfold is_valid_code_no
    dsimp only
    split_ifs <;> simp_all
  · intro s hdig hlen
    have hne : s.toList ≠ [] := by
      intro he; rw [he] at hlen; simp at hlen
    have hds := isDateShaped_digits hdig
    have hpn := isPureNumeric_of_digits hne hdig
    unfold is_valid_code_no
    dsimp only
    split_ifs <;> simp_all
  · intro s hdig h2 h6 hval
    have hne : s.toList ≠ [] := by
      intro he; rw [he] at h2; simp at h2
    have hds := isDateShaped_digits hdig
    have hpn := isPureNumeric_of_digits hne hdig
    unfold is_valid_code_no
    dsimp only
    rw [pyInt?_digits hne hdig]
    split_ifs <;> simp_all
  · intro s hmem
    have hfacts : ∀ l ∈ invalidLabels, 3 ≤ l.length ∧ isDigitC (l.headD 'x') = false := by
      decide
    obtain ⟨hlab3, hlabhead⟩ := hfacts _ hmem
    cases hcs : s.toList with
    | nil =>
      rw [hcs] at hmem
      exact absurd hmem (by decide)
    | cons c rest =>
      rw [hcs] at hmem hlab3 hlabhead
      have hhead : (pyLower (c :: rest)).headD 'x' = lowerChar c := by simp [pyLower]
      have hcdig : isDigitC c = false := by
        cases hcd : isDigitC c
        · rfl
        · rw [hhead, lowerChar_digit hcd, hcd] at hlabhead
          exact absurd hlabhead (by simp)
      have hlen : (pyLower (c :: rest)).length = (c :: rest).length := by simp [pyLower]
      have hl2 : ¬ (c :: rest).length < 2 := by
        rw [hlen] at hlab3; omega
      have hcontains : invalidLabels.contains (pyLower (c :: rest)) = true :=
        List.elem_eq_true_of_mem hmem
      have hlab : isInvalidLabel (c :: rest) = true := by
        unfold isInvalidLabel
        dsimp only
        rw [hcontains]
        rfl
      have hpn : isPureNumeric (c :: rest) = false := by
        simp [isPureNumeric, hcdig]
      have htail : isValidCodeNoTail (c :: rest) = some false := by
        unfold isValidCodeNoTail
        simp [hlab]
      unfold is_valid_code_no
      dsimp only
      rw [hcs]
      simp [hl2, isDateShaped_head_not_digit hcdig, hpn, htail]

/-- Witness for C5: the universal rejection clauses applied at
"31/12/2024" (date-shaped), "1234567" (7 digits), "500000" (value over
100,000) and "TOTAL" (denylisted label, case-insensitive). -/
theorem c5_code_validator_witness :
    isDateShaped "31/12/2024".toList = true ∧
    is_valid_code_no "31/12/2024" = some false ∧
    "1234567".toList.all isDigitC = true ∧
    is_valid_code_no "1234567" = some false ∧
    pyLower "TOTAL".toList ∈ invalidLabels ∧
    is_valid_code_no "TOTAL" = some false ∧
    is_valid_code_no "500000" = some false :=
  ⟨by decide, c5_code_validator.1 "31/12/2024" (by decide),
   by decide, c5_code_validator.2.1 "1234567" (by decide) (by decide),
   by decide, c5_code_validator.2.2.2.1 "TOTAL" (by decide),
   c5_code_validator.2.2.1 "500000" (by decide) (by decide) (by decide) (by decide)⟩

/-- C6: the result assembler computes the VAT percentage as
`(tax/subtotal)*100` rounded to 2 decimals exactly when both converted
totals fields are present (truthy) and the subtotal is positive, and
otherwise leaves it absent; the division is never performed with a zero
or absent subtotal. -/
theorem c6_vat_percent_guard :
    ∀ parsed : Parsed,
      ((mkTotals parsed).vat_percent ≠ none ↔
        truthyQ parsed.tax = true ∧ ∃ s, parsed.subtotal = some s ∧ 0 < s) ∧
      (∀ s t, parsed.subtotal = some s → parsed.tax = some t → 0 < s → t ≠ 0 →
        (mkTotals parsed).vat_percent = some (round2 (t / s * 100))) := by
  intro parsed
  constructor
  · rcases hsub : parsed.subtotal with _ | s <;> rcases htax : parsed.tax with _ | t
    · simp [mkTotals, pyFloatOpt, truthyQ, hsub, htax]
    · simp [mkTotals, pyFloatOpt, truthyQ, hsub, htax]
    · by_cases hs0 : s = 0 <;>
        simp [mkTotals, pyFloatOpt, truthyQ, hsub, htax, hs0]
    · by_cases hs0 : s = 0
      · simp [mkTotals, pyFloatOpt, truthyQ, hsub, htax, hs0]
      · by_cases ht0 : t = 0
        · simp [mkTotals, pyFloatOpt, truthyQ, hsub, htax, hs0, ht0]
        · by_cases hpos : 0 < s
          · simp [mkTotals, pyFloatOpt, truthyQ, hsub, htax, hs0, ht0, hpos]
          · simp [mkTotals, pyFloatOpt, truthyQ, hsub, htax, hs0, ht0, hpos]
  · intro s t hsub htax hpos ht0
    have hs0 : s ≠ 0 := ne_of_gt hpos
    simp [mkTotals, pyFloatOpt, hsub, htax, hs0, ht0, hpos]

/-- The totals used in the sample document. -/
def c6Parsed : Parsed := { subtotal := some 4256496, tax := some (76516928 / 100) }

/-- Witness for C6: the VAT-percent derivation fires on the sample
subtotal/tax pair. -/
theorem c6_vat_percent_guard_witness :
    (mkTotals c6Parsed).vat_percent =
      some (round2 ((76516928 / 100 : ℚ) / 4256496 * 100)) :=
  (c6_vat_percent_guard c6Parsed).2 4256496 (76516928 / 100) rfl rfl
    (by norm_num) (by norm_num)

/-- Converting by `float(x) if x else None` preserves Python truthiness. -/
lemma truthyQ_pyFloatOpt (x : Option ℚ) : truthyQ (pyFloatOpt x) = truthyQ x := by
  rcases x with _ | q
  · rfl
  · by_cases h : q = 0 <;> simp [pyFloatOpt, truthyQ, h]

/-- `has_data` in terms of the parsed dict's own four signals. -/
lemma hasData_eq (p : Parsed) :
    hasData (mkHeader p) (formatItems p.items) =
      (truthyS p.customer_name || truthyS p.invoice_no ||
        !p.items.isEmpty || truthyQ p.total) := by
  cases hi : p.items <;>
    simp [hasData, mkHeader, formatItems, truthyQ_pyFloatOpt, hi]

/-- C2: for every input whose PDF text extraction yields non-blank text,
the outcome is `parsing_failed` exactly when none of the four signals
(customer name, invoice number, at least one item, truthy total) holds,
and otherwise success; `parsing_failed` retains the extracted text as
`raw_text`, while every other failure kind returns an empty `raw_text`. -/
theorem c2_parsing_failed_classification :
    (∀ (file_bytes : List UInt8) (filename text : String) (parsed : Parsed),
      file_bytes ≠ [] →
      (imageExts.any fun ext => endsWithLower filename ext) = false →
      (endsWithLower filename ".pdf" ||
        (4 < file_bytes.length && file_bytes.take 4 = pdfMagic)) = true →
      pyStrip text ≠ "" →
      ((extract_from_bytes file_bytes filename (.ok text) fun _ => parsed) =
          processText text parsed) ∧
      (((processText text parsed).success = false ∧
        (processText text parsed).error = some "parsing_failed" ∧
        (processText text parsed).raw_text = text ∧
        (processText text parsed).header = none ∧
        (processText text parsed).items = []) ↔
        (truthyS parsed.customer_name = false ∧ truthyS parsed.invoice_no = false ∧
         parsed.items = [] ∧ truthyQ parsed.total = false)) ∧
      ((truthyS parsed.customer_name = true ∨ truthyS parsed.invoice_no = true ∨
        parsed.items ≠ [] ∨ truthyQ parsed.total = true) →
        (processText text parsed).success = true ∧
        (processText text parsed).error = none ∧
        (processText text parsed).raw_text = text)) ∧
    (∀ (file_bytes : List UInt8) (filename : String)
       (pdfText : Except String String) (parseOf : String → Parsed),
      (extract_from_bytes file_bytes filename pdfText parseOf).success = false →
      (extract_from_bytes file_bytes filename pdfText parseOf).error ≠
        some "parsing_failed" →
      (extract_from_bytes file_bytes filename pdfText parseOf).raw_text = "") := by
  constructor
  · intro file_bytes filename text parsed hb himg hpdf htext
    refine ⟨?_, ?_, ?_⟩
    · unfold extract_from_bytes
      dsimp only
      rw [if_neg hb, himg, hpdf]
      simp [htext]
    · unfold processText
      dsimp only
      rw [hasData_eq]
      by_cases hc : truthyS parsed.customer_name = true <;>
        by_cases hi : truthyS parsed.invoice_no = true <;>
        by_cases hit : parsed.items = [] <;>
        by_cases ht : truthyQ parsed.total = true <;>
        simp_all
    · intro h
      unfold processText
      dsimp only
      rw [hasData_eq]
      have : (truthyS parsed.customer_name || truthyS parsed.invoice_no ||
          !parsed.items.isEmpty || truthyQ parsed.total) = true := by
        rcases h with h | h | h | h <;> simp [h]
      rw [this]
      exact ⟨rfl, rfl, rfl⟩
  · intro file_bytes filename pdfText parseOf
    unfold extract_from_bytes
    dsimp only
    by_cases hb : file_bytes = []
    · simp [hb]
    · rw [if_neg hb]
      by_cases himg : (imageExts.any fun ext => endsWithLower filename ext) = true
      · rw [himg]
        intro _ _
        rfl
      · rw [Bool.not_eq_true] at himg
        rw [himg]
        by_cases hpdf : (endsWithLower filename ".pdf" ||
            (4 < file_bytes.length && file_bytes.take 4 = pdfMagic)) = true
        · rw [hpdf]
          cases pdfText with
          | error e => intro _ _; rfl
          | ok text =>
            by_cases htext : pyStrip text = ""
            · simp [htext]
            · simp only [htext, if_neg htext]
              unfold processText
              dsimp only
              by_cases hd : hasData (mkHeader (parseOf text))
                  (formatItems (parseOf text).items) = true
              · rw [hd]
                intro hsucc
                exact absurd hsucc (by simp)
              · rw [Bool.not_eq_true] at hd
                rw [hd]
                intro _ herr
                exact absurd rfl herr
        · rw [Bool.not_eq_true] at hpdf
          rw [hpdf]
          intro _ _
          rfl

/-- A five-byte buffer starting with the PDF magic. -/
def pdfBytes5 : List UInt8 := [0x25, 0x50, 0x44, 0x46, 0x2d]

/-- Witness for C2: a pdf-classified input with non-blank text and an
all-empty parse is classified `parsing_failed` and keeps the text. -/
theorem c2_parsing_failed_classification_witness :
    (extract_from_bytes pdfBytes5 "inv.pdf" (.ok "gibberish text") fun _ => ({} : Parsed)) =
      processText "gibberish text" {} ∧
    (processText "gibberish text" ({} : Parsed)).error = some "parsing_failed" ∧
    (processText "gibberish text" ({} : Parsed)).raw_text = "gibberish text" :=
  have h := c2_parsing_failed_classification.1 pdfBytes5 "inv.pdf" "gibberish text" {}
    (by decide) (by decide) (by decide) (by decide)
  ⟨h.1, ((h.2.1).mpr (by decide)).2.1, ((h.2.1).mpr (by decide)).2.2.1⟩

/-- C7 counterexample: a non-empty buffer whose first four bytes are
exactly the PDF magic, but which is only four bytes long, is classified
`unsupported_file_type` — the source requires `len(file_bytes) > 4` in
addition to the magic prefix, so the claim's "first four bytes equal
%PDF" disjunct is wrong as stated. -/
theorem c7_counterexample :
    ([0x25, 0x50, 0x44, 0x46] : List UInt8).take 4 = pdfMagic ∧
    ([0x25, 0x50, 0x44, 0x46] : List UInt8) ≠ [] ∧
    (extract_from_bytes [0x25, 0x50, 0x44, 0x46] "scan.dat" (.ok "text")
        fun _ => ({} : Parsed)).error = some "unsupported_file_type" :=
  ⟨rfl, by decide, by decide⟩

/-- C7 (amended): an empty buffer yields `empty_file` regardless of
filename; a non-empty buffer with an image extension yields
`image_file_not_supported` without consulting the text extractor; a
non-empty, non-image input proceeds as a PDF exactly when the filename
ends in ".pdf" or the buffer is longer than four bytes and starts with
the magic `%PDF`, and otherwise yields `unsupported_file_type`. -/
theorem c7_source_classification :
    ∀ (file_bytes : List UInt8) (filename : String)
      (pdfText : Except String String) (parseOf : String → Parsed),
      (file_bytes = [] →
        (extract_from_bytes file_bytes filename pdfText parseOf).error = some "empty_file" ∧
        (extract_from_bytes file_bytes filename pdfText parseOf).raw_text = "") ∧
      (file_bytes ≠ [] →
        (imageExts.any fun ext => endsWithLower filename ext) = true →
        (extract_from_bytes file_bytes filename pdfText parseOf).error =
          some "image_file_not_supported" ∧
        (∀ pdfText', extract_from_bytes file_bytes filename pdfText' parseOf =
          extract_from_bytes file_bytes filename pdfText parseOf)) ∧
      (file_bytes ≠ [] →
        (imageExts.any fun ext => endsWithLower filename ext) = false →
        ((extract_from_bytes file_bytes filename pdfText parseOf).error =
            some "unsupported_file_type" ↔
          ¬(endsWithLower filename ".pdf" = true ∨
            (4 < file_bytes.length ∧ file_bytes.take 4 = pdfMagic)))) := by
  intro file_bytes filename pdfText parseOf
  refine ⟨?_, ?_, ?_⟩
  · intro hb
    unfold extract_from_bytes
    simp [hb]
  · intro hb himg
    unfold extract_from_bytes
    dsimp only
    rw [if_neg hb, himg]
    refine ⟨rfl, fun pdfText' => ?_⟩
    simp [hb, himg]
  · intro hb himg
    unfold extract_from_bytes
    dsimp only
    rw [if_neg hb, himg]
    by_cases hpdf : (endsWithLower filename ".pdf" ||
        (4 < file_bytes.length && file_bytes.take 4 = pdfMagic)) = true
    · have hdisj : endsWithLower filename ".pdf" = true ∨
          (4 < file_bytes.length ∧ file_bytes.take 4 = pdfMagic) := by
        simpa using hpdf
      rw [hpdf]
      constructor
      · intro herr
        exfalso
        revert herr
        cases pdfText with
        | error e => simp
        | ok text =>
          by_cases htext : pyStrip text = ""
          · simp [htext]
          · simp only [if_neg htext]
            unfold processText
            dsimp only
            by_cases hd : hasData (mkHeader (parseOf text))
                (formatItems (parseOf text).items) = true
            · rw [hd]; simp
            · rw [Bool.not_eq_true] at hd; rw [hd]; simp
      · intro hn
        exact absurd hdisj hn
    · rw [Bool.not_eq_true] at hpdf
      rw [hpdf]
      constructor
      · intro _ h
        rcases h with h | ⟨h1, h2⟩
        · simp [h] at hpdf
        · simp [h1, h2] at hpdf
      · intro _
        rfl

/-- Witness for C7: image-extension input short-circuits with
`image_file_not_supported`, independently of the extractor outcome. -/
theorem c7_source_classification_witness :
    (extract_from_bytes pdfBytes5 "photo.jpg" (.error "boom")
        fun _ => ({} : Parsed)).error = some "image_file_not_supported" ∧
    extract_from_bytes pdfBytes5 "photo.jpg" (.ok "text") (fun _ => ({} : Parsed)) =
      extract_from_bytes pdfBytes5 "photo.jpg" (.error "boom") fun _ => ({} : Parsed) :=
  have h := (c7_source_classification pdfBytes5 "photo.jpg" (.error "boom")
    fun _ => ({} : Parsed)).2.1 (by decide) (by decide)
  ⟨h.1, h.2 (.ok "text")⟩

/-- C10: a monetary header field extracted as exactly 0 is reported in
the assembled header as absent rather than 0, and a zero total does not
count as a has-data signal, so a parse whose only extracted field is a
zero total is classified `parsing_failed`. -/
theorem c10_zero_monetary_absent :
    ∀ (parsed : Parsed) (text : String),
      (parsed.subtotal = some 0 → (mkHeader parsed).subtotal = none) ∧
      (parsed.tax = some 0 → (mkHeader parsed).tax = none) ∧
      (parsed.total = some 0 → (mkHeader parsed).total = none) ∧
      (parsed.total = some 0 → truthyS parsed.customer_name = false →
        truthyS parsed.invoice_no = false → parsed.items = [] →
        (processText text parsed).success = false ∧
        (processText text parsed).error = some "parsing_failed") := by
  intro parsed text
  refine ⟨?_, ?_, ?_, ?_⟩
  · intro h; simp [mkHeader, pyFloatOpt, h]
  · intro h; simp [mkHeader, pyFloatOpt, h]
  · intro h; simp [mkHeader, pyFloatOpt, h]
  · intro ht hc hi hits
    unfold processText
    dsimp only
    rw [hasData_eq]
    simp [hc, hi, hits, truthyQ, ht]

/-- A parse whose only extracted field is a zero total. -/
def c10Parsed : Parsed := { total := some 0 }

/-- Witness for C10: zero total reported absent and classified
`parsing_failed`. -/
theorem c10_zero_monetary_absent_witness :
    (mkHeader c10Parsed).total = none ∧
    (processText "Grand Total: 0.00" c10Parsed).error = some "parsing_failed" :=
  have h := c10_zero_monetary_absent c10Parsed "Grand Total: 0.00"
  ⟨h.2.2.1 rfl, (h.2.2.2 rfl rfl rfl rfl).2⟩

/-- C8: backend A's text is returned immediately whenever it is
non-blank (independently of backend B); when neither library is present
the error says no library is available; when both backends were tried
and both failed the error composes both reasons; when only one backend
was tried its reason is reported alone. -/
theorem c8_backend_trial_order :
    (∀ (ps : List String) (b : Backend), usableText (pagesText "" ps) = true →
      extract_text_from_pdf (.pages ps) b = .ok (pagesText "" ps)) ∧
    extract_text_from_pdf .unavailable .unavailable = .error noLibMsg ∧
    (∀ e1 e2, extract_text_from_pdf (.raises e1) (.raises e2) =
      .error (composedMsg e1 e2)) ∧
    (∀ ps e2, usableText (pagesText "" ps) = false →
      extract_text_from_pdf (.pages ps) (.raises e2) =
        .error (composedMsg "No text found in PDF (PyMuPDF)" e2)) ∧
    (∀ e1, extract_text_from_pdf (.raises e1) .unavailable = .error e1) ∧
    (∀ e2, extract_text_from_pdf .unavailable (.raises e2) = .error e2) := by
  refine ⟨?_, rfl, ?_, ?_, ?_, ?_⟩
  · intro ps b h
    simp [extract_text_from_pdf, h]
  · intro e1 e2
    rfl
  · intro ps e2 h
    have hsp : pyStrip (pagesText "" ps) = "" := by
      by_cases ht : pagesText "" ps = ""
      · rw [ht]; rfl
      · by_cases hs : pyStrip (pagesText "" ps) = ""
        · exact hs
        · exfalso
          rw [usableText] at h
          simp [ht, hs] at h
    simp [extract_text_from_pdf, h, hsp]
  · intro e1
    rfl
  · intro e2
    rfl

/-- Witness for C8: backend A's non-blank text returned immediately even
though backend B would raise; a blank backend A composed with a raising
backend B reports both reasons. -/
theorem c8_backend_trial_order_witness :
    extract_text_from_pdf (.pages ["hello"]) (.raises "zap") =
      .ok (pagesText "" ["hello"]) ∧
    extract_text_from_pdf (.pages [""]) (.raises "zap") =
      .error (composedMsg "No text found in PDF (PyMuPDF)" "zap") :=
  ⟨c8_backend_trial_order.1 ["hello"] (.raises "zap") (by decide),
   c8_backend_trial_order.2.2.2.1 [""] "zap" (by decide)⟩

/-- A successful parse (`has_data` holds via the customer name) whose
`invoice_no` key holds `None`. -/
def c9Parsed : Parsed := { customer_name := some "STATEOIL TANZANIA LIMITED" }

/-- A parse with an invoice number and two items, for the numbering
check. -/
def c9ParsedOk : Parsed :=
  { invoice_no := some "PI-1765632",
    items :=
      [ { code := some "21004", description := "WHEEL BALANCE ALLOY",
          unit := some "PCS", qty := 4, rate := 12712, value := 50848 },
        { code := none, description := "WHEEL ALIGNMENT",
          unit := some "UNT", qty := 1, rate := 50848, value := 50848 } ] }

/-- C9: `build_invoice_json` is not total on successful parses — on a
parse classified Success whose `invoice_no` is absent (the key holds
`None`), `parsed.get('invoice_no', '').upper()` raises
`AttributeError`; when `invoice_no` is present it returns the document
with items numbered `sr_no = 1..n` in input order. -/
theorem c9_build_invoice_json_raises :
    hasData (mkHeader c9Parsed) (formatItems c9Parsed.items) = true ∧
    c9Parsed.invoice_no = none ∧
    build_invoice_json c9Parsed =
      .error "AttributeError: 'NoneType' object has no attribute 'upper'" ∧
    ((build_invoice_json c9ParsedOk).toOption.map
        fun d => d.items.map fun i => i.sr_no) = some [1, 2] :=
  ⟨by decide, rfl, rfl, by decide⟩

/-- The item-table header line of the sample document. -/
def sampleHeaderLine : String :=
  "Sr  Item Code  Description                                                             Type  Qty  Rate (TSH)   Value (TSH)"

/-- The first tabulated row of the sample document. -/
def sampleRow : String :=
  "1   2132004135 BF GOODRICH TYRE LT265/65R17 116/113S TL ALL-TERRAIN T/A KO3 LRD RWL GO PCS   4    1,037,400.00 4,149,600.00"

unseal Rat.add Rat.mul Rat.inv in
set_option maxRecDepth 100000 in
/-- C1: on the sample tabulated row the reconstructor produces the item
with code "2132004135", unit "PCS", qty 4, rate 1037400.00 and value
4149600.00; and whenever the tier-1 pattern matches, the resulting item
takes rate and value verbatim from capture groups 4 and 5 (value is
never recomputed as qty times rate). -/
theorem c1_sample_row_item :
    extract_line_items_corrected [sampleHeaderLine, sampleRow] =
      [{ code := some "2132004135",
         description := "BF GOODRICH TYRE LT265/65R17 116/113S TL ALL-TERRAIN T/A KO3 LRD RWL GO",
         unit := some "PCS", qty := 4, rate := 1037400, value := 4149600 }] ∧
    (∀ (fr : List Frag) (n : String) (t : T1), fr ≠ [] →
      tier1 (cleanedTextOf fr) = some t →
      parse_item_complete fr n = some (mkTier1Item (itemCodeOf fr) t) ∧
      (mkTier1Item (itemCodeOf fr) t).value = (pyDec? (dropCommas t.valueTok)).getD 0 ∧
      (mkTier1Item (itemCodeOf fr) t).rate = (pyDec? (dropCommas t.rateTok)).getD 0) := by
  constructor
  · decide
  · intro fr n t hne h1
    refine ⟨?_, rfl, rfl⟩
    cases fr with
    | nil => exact absurd rfl hne
    | cons a l =>
      unfold parse_item_complete
      dsimp only
      rw [h1]

/-- The sample row's fragment as accumulated by the scan loop. -/
def sampleFrag : Frag :=
  ⟨some "2132004135",
   "BF GOODRICH TYRE LT265/65R17 116/113S TL ALL-TERRAIN T/A KO3 LRD RWL GO PCS   4    1,037,400.00 4,149,600.00"⟩

/-- The tier-1 captures on the sample fragment. -/
def sampleT1 : T1 :=
  ⟨"BF GOODRICH TYRE LT265/65R17 116/113S TL ALL-TERRAIN T/A KO3 LRD RWL GO".toList,
   "PCS".toList, "4".toList, "1,037,400.00".toList, "4,149,600.00".toList⟩

unseal Rat.add Rat.mul Rat.inv in
set_option maxRecDepth 100000 in
/-- Witness for C1: the tier-1 clause applied to the sample fragment. -/
theorem c1_sample_row_item_witness :
    parse_item_complete [sampleFrag] "1" =
      some (mkTier1Item (itemCodeOf [sampleFrag]) sampleT1) :=
  (c1_sample_row_item.2 [sampleFrag] "1" sampleT1 (by decide) (by decide)).1

/-- Emission preserves the no-empty-description invariant: an item is
appended only after the truthiness check on its description. -/
lemma emitItem_desc {it : Option LineItem} {acc : List LineItem}
    (hacc : ∀ x ∈ acc, x.description ≠ "") :
    ∀ x ∈ emitItem it acc, x.description ≠ "" := by
  intro x hx
  unfold emitItem at hx
  rcases it with _ | item
  · exact hacc x hx
  · dsimp only at hx
    by_cases hd : item.description ≠ ""
    · rw [if_pos hd] at hx
      rcases List.mem_append.mp hx with h | h
      · exact hacc x h
      · rw [List.mem_singleton] at h
        rw [h]
        exact hd
    · rw [if_neg hd] at hx
      exact hacc x hx

/-- Flushing preserves the no-empty-description invariant. -/
lemma flushCur_desc {cur : Option (String × List Frag)} {acc : List LineItem}
    (hacc : ∀ x ∈ acc, x.description ≠ "") :
    ∀ x ∈ flushCur cur acc, x.description ≠ "" := by
  rcases cur with _ | ⟨n, fr⟩
  · exact hacc
  · exact emitItem_desc hacc

/-- The scan loop preserves the no-empty-description invariant. -/
lemma scanItems_desc : ∀ (ls : List String) (cur : Option (String × List Frag))
    (acc : List LineItem), (∀ x ∈ acc, x.description ≠ "") →
    ∀ x ∈ scanItems ls cur acc, x.description ≠ "" := by
  intro ls
  induction ls with
  | nil =>
    intro cur acc hacc
    exact flushCur_desc hacc
  | cons l rest ih =>
    intro cur acc hacc
    unfold scanItems
    dsimp only
    by_cases h1 : isSectionBreak (pyStrip l) = true
    · rw [h1]
      simp only [if_true]
      exact flushCur_desc hacc
    · rw [Bool.not_eq_true] at h1
      rw [h1]
      simp only [Bool.false_eq_true, if_false]
      by_cases h2 : pyStrip l = ""
      · rw [if_pos h2]
        exact ih cur acc hacc
      · rw [if_neg h2]
        cases hm : reMatch itemStartFullRE (pyStrip l) with
        | some m => exact ih _ _ (flushCur_desc hacc)
        | none =>
          cases hm2 : reMatch itemStartSimpleRE (pyStrip l) with
          | some m => exact ih _ _ (flushCur_desc hacc)
          | none =>
            rcases cur with _ | ⟨n, fr⟩
            · exact ih _ _ hacc
            · exact ih _ _ hacc

/-- The C3 probe table header. -/
def c3HeaderLine : String := "Sr Item Code Description Type Qty Rate Value"

/-- The C3 probe row: a tier-1 item whose description is one character. -/
def c3Row : String := "1 12345678 X PCS 4 100.00 400.00"

unseal Rat.add Rat.mul Rat.inv in
set_option maxRecDepth 100000 in
/-- C3 counterexample: a row whose reconstructed description is the
single character "X" is parsed by tier 1 and IS emitted — the
minimum-length-2 discard exists only inside the tier-4 fallback, so the
claim's "empty or single-character descriptions are discarded for every
tier" is false on the code. -/
theorem c3_counterexample :
    extract_line_items_corrected [c3HeaderLine, c3Row] =
      [{ code := some "12345678", description := "X", unit := some "PCS",
         qty := 4, rate := 100, value := 400 }] ∧
    ("X" : String).length = 1 := ⟨by decide, rfl⟩

/-- C3 (amended): no item with an empty description is ever emitted, for
any input lines and any tier (single-character descriptions, however,
are only discarded by the tier-4 fallback). -/
theorem c3_no_empty_description :
    ∀ (lines : List String) (item : LineItem),
      item ∈ extract_line_items_corrected lines → item.description ≠ "" := by
  intro lines item hmem
  unfold extract_line_items_corrected at hmem
  rcases hidx : findHeaderIdx lines with _ | i
  · rw [hidx] at hmem
    exact absurd hmem (by simp)
  · rw [hidx] at hmem
    exact scanItems_desc _ none [] (by simp) item hmem

unseal Rat.add Rat.mul Rat.inv in
set_option maxRecDepth 100000 in
/-- Witness for C3: the invariant applied to the emitted single-character
item of the probe table. -/
theorem c3_no_empty_description_witness :
    ({ code := some "12345678", description := "X", unit := some "PCS",
       qty := 4, rate := 100, value := 400 } : LineItem).description ≠ "" :=
  c3_no_empty_description [c3HeaderLine, c3Row] _ (by decide)

/-- The C4 probe fragment: its VAT-stripped text "W 2 3" has no
`pattern_basic` match, but the unstripped text has two. -/
def c4Frag : Frag := ⟨none, "W 2 10.00% 3 20.00%"⟩

unseal Rat.add Rat.mul Rat.inv in
set_option maxRecDepth 100000 in
/-- C4 counterexample: tier 3 is evaluated on the unstripped fragment
text, not on the VAT-stripped text.  On the probe fragment the code's
tier 3 fires (two matches in the raw text) and yields qty 2, rate 20,
while the spec-worded parser (every tier over the VAT-stripped text)
falls through to tier 4 and discards the item. -/
theorem c4_counterexample :
    parse_item_complete [c4Frag] "1" =
      some { code := none, description := "W % %", unit := none,
             qty := 2, rate := 20, value := 40 } ∧
    (findIter pattern_basic (cleanedTextOf [c4Frag])).length < 2 ∧
    claimed_parse_item_complete [c4Frag] "1" = none :=
  ⟨by decide, by decide, by decide⟩

/-- C4 (amended): the four tiers are applied in strict priority order —
once a tier matches, no lower tier contributes — with tiers 1, 2 and 4
evaluated on the VAT-stripped concatenated text and tier 3 evaluated on
the unstripped concatenated text. -/
theorem c4_tier_priority :
    ∀ (fr : List Frag) (n : String), fr ≠ [] →
      (∀ t, tier1 (cleanedTextOf fr) = some t →
        parse_item_complete fr n = some (mkTier1Item (itemCodeOf fr) t)) ∧
      (tier1 (cleanedTextOf fr) = none →
        ∀ t, tier2 (cleanedTextOf fr) = some t →
          parse_item_complete fr n = some (mkTier2Item (itemCodeOf fr) t)) ∧
      (tier1 (cleanedTextOf fr) = none → tier2 (cleanedTextOf fr) = none →
        2 ≤ (findIter pattern_basic (fullTextOf fr)).length →
        parse_item_complete fr n = some (mkTier3Item (itemCodeOf fr) (fullTextOf fr)
          (findIter pattern_basic (fullTextOf fr)))) ∧
      (tier1 (cleanedTextOf fr) = none → tier2 (cleanedTextOf fr) = none →
        (findIter pattern_basic (fullTextOf fr)).length < 2 →
        parse_item_complete fr n =
          tier4 (itemCodeOf fr) (fullTextOf fr) (cleanedTextOf fr)) := by
  intro fr n hne
  cases fr with
  | nil => exact absurd rfl hne
  | cons a l =>
    refine ⟨?_, ?_, ?_, ?_⟩
    · intro t h1
      unfold parse_item_complete
      dsimp only
      rw [h1]
    · intro h1 t h2
      unfold parse_item_complete
      dsimp only
      rw [h1, h2]
    · intro h1 h2 h3
      unfold parse_item_complete
      dsimp only
      rw [h1, h2, if_pos h3]
    · intro h1 h2 h3
      unfold parse_item_complete
      dsimp only
      rw [h1, h2, if_neg (by omega)]

unseal Rat.add Rat.mul Rat.inv in
set_option maxRecDepth 100000 in
/-- Witness for C4: the tier-3 clause applied to the probe fragment
(tiers 1 and 2 fail on the stripped text, tier 3 fires on the raw
text). -/
theorem c4_tier_priority_witness :
    parse_item_complete [c4Frag] "1" =
      some (mkTier3Item (itemCodeOf [c4Frag]) (fullTextOf [c4Frag])
        (findIter pattern_basic (fullTextOf [c4Frag]))) :=
  (c4_tier_priority [c4Frag] "1" (by decide)).2.2.1 (by decide) (by decide) (by decide)

end PdfExtract
